import Mathlib

/-!
Shallow embedding of `nextcord/sink.py` (voice-capture sink): the
`AudioData` per-speaker buffer, the `FiltersMixin` admission filter,
and the `Sink` orchestrator (`write`, `cleanup`, `format_audio`,
`get_files`), together with theorems about the routing, quota,
finalization and transcoding behaviour.

Modelling conventions:
* byte strings are `List Nat`;
* the open file handle of an `AudioData` is modelled by the `contents`
  field (the bytes successfully written through the handle); a write
  that raises `ValueError` in the source is modelled by a `Bool`
  argument saying whether the underlying `file.write` succeeded;
* the file system visible to `format_audio` (existence checks,
  `os.remove`, files produced by the wav writer and by ffmpeg) is an
  association list from paths to file contents, threaded explicitly;
* exceptions are `Except ClientException`; in the source a raise
  happens before any mutation on the failing object, so an `.error`
  result carries no new state;
* the voice client (`self.vc`) is a record of the fields `sink.py`
  reads: `get_ssrc`, `listening` and the decoder parameters;
* `datetime.datetime.utcnow().timestamp()` is an opaque wall-clock
  string `now` passed to `Sink.write`.
-/

/-- Modelled from the spec: `ClientException` lives in `nextcord/errors.py`,
which is not part of the excerpt; `sink.py` only ever constructs it with a
message string, so it is a single-field wrapper around the message. -/
structure ClientException where
  message : String
deriving DecidableEq, Repr

/-- Modelled from the spec: the `Encodings` enum lives in
`nextcord/enums.py`, outside the excerpt.  Per the `Sink` docstring and
spec §6 the recognized targets are `wav`, `mp3` and `pcm`, and
`Encodings.value` is the extension string. -/
inductive Encodings where
  | wav
  | mp3
  | pcm
deriving DecidableEq, Repr

def Encodings.value : Encodings → String
  | .wav => "wav"
  | .mp3 => "mp3"
  | .pcm => "pcm"

/-- The fields of `vc.decoder` read by `Sink.format_audio`. -/
structure Decoder where
  CHANNELS : Nat
  SAMPLE_SIZE : Nat
  SAMPLING_RATE : Nat
deriving DecidableEq, Repr

/-- The voice transport (`self.vc`) as seen by `sink.py`: speaker→ssrc
resolution and the listening flag, plus the active decoder. -/
structure VoiceClient where
  get_ssrc : Nat → Nat
  listening : Bool
  decoder : Decoder

/-- Big-endian value of a byte list (each byte taken mod 256), as
`struct.Struct` with a big-endian format reads fixed-width fields. -/
def beBytes (bs : List Nat) : Nat :=
  bs.foldl (fun a b => a * 256 + b % 256) 0

/-- The decrypting client used by `RawData.__init__`:
`getattr(client, "_decrypt_" + client.mode)(header, data)`. -/
structure RawClient where
  decrypt : List Nat → List Nat → List Nat

/-- `RawData`: one decoded transport packet (sink.py lines 163-177).
`sequence`, `timestamp`, `ssrc` come from `struct.Struct` format ">xxHII"
applied to the 12-byte header: 2 pad bytes, a 2-byte sequence, a 4-byte
timestamp and a 4-byte ssrc, all big-endian. -/
structure RawData where
  header : List Nat
  data : List Nat
  sequence : Nat
  timestamp : Nat
  ssrc : Nat
  decrypted_data : List Nat
  user_id : Option Nat

/-- `RawData.__init__`: strip the 12-byte header, parse it, decrypt. -/
def RawData.make (data : List Nat) (client : RawClient) : RawData :=
  let header := data.take 12
  let body := data.drop 12
  { header := header
    data := body
    sequence := beBytes ((header.drop 2).take 2)
    timestamp := beBytes ((header.drop 4).take 4)
    ssrc := beBytes ((header.drop 8).take 4)
    decrypted_data := client.decrypt header body
    user_id := none }

/-- Split a character list at its last slash: `some (dir, base)` when a
slash occurs, `none` otherwise. -/
def splitAtLastSlash : List Char → Option (List Char × List Char)
  | [] => none
  | c :: rest =>
    match splitAtLastSlash rest with
    | some (d, b) => some (c :: d, b)
    | none => if c = '/' then some ([], rest) else none

/-- `os.path.split(p)[0]` for the slash-normalized absolute paths the
sink builds: everything before the last slash. -/
def dirOf (p : String) : String :=
  match splitAtLastSlash p.data with
  | some (d, _) => String.mk d
  | none => ""

/-- `os.path.split(p)[1]`: everything after the last slash. -/
def baseOf (p : String) : String :=
  match splitAtLastSlash p.data with
  | some (_, b) => String.mk b
  | none => p

/-- The prefix of a character list before the first dot. -/
def upToFirstDot : List Char → List Char
  | [] => []
  | c :: rest => if c = '.' then [] else c :: upToFirstDot rest

/-- `p.split('.')[0]`: the prefix of `p` before its first dot (all of
`p` when it has no dot). -/
def stemOf (p : String) : String :=
  String.mk (upToFirstDot p.data)

/-- `AudioData`: per-speaker buffer state (sink.py lines 179-215).
`file` is the path the handle was opened on; after `cleanup` the source
replaces the handle by `os.path.join(dir_path, file.name)`, which for
the absolute paths the sink constructs is the same string, so `file`
stays the path throughout.  `contents` models the bytes written through
the open handle; `size` is `_size`. -/
structure AudioData where
  file : String
  dir_path : String
  finished : Bool
  size : Nat
  contents : List Nat
deriving DecidableEq, Repr

/-- `AudioData.__init__(file)`: open `file` in append mode (a fresh
empty file for the fresh timestamped names the sink uses), remember the
directory, `finished = False`, `_size = 0`. -/
def AudioData.init (file : String) : AudioData :=
  { file := file, dir_path := dirOf file, finished := false, size := 0, contents := [] }

/-- `AudioData.write(data)`: raise if finished; otherwise
`_size += file.write(data)`, and a `ValueError` from the underlying
write is swallowed (`wr = false` models the underlying write raising,
in which case nothing is written and `_size` is untouched). -/
def AudioData.write (a : AudioData) (data : List Nat) (wr : Bool) :
    Except ClientException AudioData :=
  if a.finished then
    .error ⟨"This AudioData is already finished writing."⟩
  else if wr then
    .ok { a with size := a.size + data.length, contents := a.contents ++ data }
  else
    .ok a

/-- `AudioData.cleanup()`: raise if already finished; otherwise close
the handle and turn `file` into the path (unchanged as a string, see
above), setting `finished = True`. -/
def AudioData.cleanup (a : AudioData) : Except ClientException AudioData :=
  if a.finished then
    .error ⟨"This AudioData is already finished writing."⟩
  else
    .ok { a with finished := true }

/-- `AudioData.on_format(encoding)`: raise if still writing; otherwise
rename the extension: basename up to the first dot plus the encoding
extension, rejoined to `dir_path`. -/
def AudioData.on_format (a : AudioData) (encoding : Encodings) :
    Except ClientException AudioData :=
  if a.finished = false then
    .error ⟨"This AudioData is still writing."⟩
  else
    let name := stemOf (baseOf a.file) ++ "." ++ encoding.value
    .ok { a with file := a.dir_path ++ "/" ++ name }

/-- `AudioData.__len__`: returns `_size` (the `print` is I/O noise). -/
def AudioData.len (a : AudioData) : Nat := a.size

/-- The admission test of `FiltersMixin.filter_decorator`:
`not self.filtered_users or user in self.filtered_users`. -/
def filter_allows (filtered_users : List Nat) (user : Nat) : Bool :=
  filtered_users.isEmpty || filtered_users.contains user

/-- The contents of a file as `Sink.format_audio` manipulates them:
raw pcm bytes, a wav container carrying the decoder parameters, or the
opaque output of the external transcoder. -/
inductive FileContent where
  | pcmF (data : List Nat)
  | wavF (channels sampwidth framerate : Nat) (data : List Nat)
  | extF
deriving DecidableEq, Repr

/-- The file system visible to `format_audio`: paths with contents. -/
def FS := List (String × FileContent)

/-- `os.path.exists`. -/
def FS.existsF (fs : FS) (p : String) : Bool :=
  (List.lookup p fs).isSome

/-- `os.remove` (no-op on an absent path only where the source already
guarded with `os.path.exists`). -/
def FS.removeF (fs : FS) (p : String) : FS :=
  List.filter (fun e => e.1 ≠ p) fs

/-- Creating/overwriting a file at a path. -/
def FS.setF (fs : FS) (p : String) (c : FileContent) : FS :=
  (p, c) :: FS.removeF fs p

/-- The external-transcoder environment: whether the `ffmpeg` binary is
on PATH (else `Popen` raises `FileNotFoundError`), and whether `Popen`
raises some other `subprocess.SubprocessError`, carried as the pair
(exception class name, exception text) that the source interpolates. -/
structure ExtEnv where
  ffmpeg_found : Bool
  spawn_error : Option (String × String)
deriving DecidableEq, Repr

/-- `Sink` state: the `FiltersMixin` fields it uses (`filtered_users`,
`max_size`, `finished`), the target encoding, the speaker→`AudioData`
map (`audio_data`, an insertion-ordered association list like a Python
dict) and the session temp directory `file_path`. -/
structure Sink where
  filtered_users : List Nat
  max_size : Nat
  finished : Bool
  encoding : Encodings
  audio_data : List (Nat × AudioData)
  file_path : String
deriving DecidableEq, Repr

/-- Replace the value stored at a key of the speaker map, as mutating
`self.audio_data[user]` in place does. -/
def updateA (l : List (Nat × AudioData)) (u : Nat) (v : AudioData) :
    List (Nat × AudioData) :=
  l.map (fun p => if p.1 = u then (u, v) else p)

/-- `Sink.write(data, user)` wrapped in `FiltersMixin.filter_decorator`
(sink.py lines 144-150 and 260-269).  If the filter denies, nothing
happens.  Otherwise: lazily create the `AudioData` of the speaker at
`{file_path}/{ssrc}-{now}.pcm` where `ssrc = vc.get_ssrc(user)` and
`now` is the rendered `datetime.datetime.utcnow().timestamp()`; then
write the frame iff `max_size == 0 or max_size >= len(file) + 3840`.
`wr` models whether the underlying `file.write` succeeds. -/
def Sink.write (s : Sink) (vc : VoiceClient) (data : List Nat) (user : Nat)
    (now : String) (wr : Bool) : Except ClientException Sink :=
  if filter_allows s.filtered_users user then
    let s1 :=
      if (List.lookup user s.audio_data).isNone then
        let ssrc := vc.get_ssrc user
        let file := s.file_path ++ "/" ++ toString ssrc ++ "-" ++ now ++ ".pcm"
        { s with audio_data := s.audio_data ++ [(user, AudioData.init file)] }
      else s
    match List.lookup user s1.audio_data with
    | none => .ok s1
    | some ad =>
      if s1.max_size = 0 ∨ ad.size + 3840 ≤ s1.max_size then
        match ad.write data wr with
        | .error e => .error e
        | .ok ad2 => .ok { s1 with audio_data := updateA s1.audio_data user ad2 }
      else .ok s1
  else .ok s

/-- `Sink.format_audio(audio)` (sink.py lines 284-319): reject while the
transport is listening; pcm target is a no-op; wav target writes a wav
container with the decoder parameters and removes the raw file; any
other target removes a pre-existing output file, spawns ffmpeg
(`FileNotFoundError` ↦ "ffmpeg was not found.",
`subprocess.SubprocessError` ↦ "Popen failed: <class>: <text>"), lets
it produce the output, and removes the raw file.  On success the buffer
is renamed via `on_format`. -/
def Sink.format_audio (s : Sink) (vc : VoiceClient) (fs : FS) (env : ExtEnv)
    (audio : AudioData) : FS × Except ClientException AudioData :=
  if vc.listening then
    (fs, .error ⟨"Audio may only be formatted after listening is finished."⟩)
  else if s.encoding = Encodings.pcm then
    (fs, .ok audio)
  else if s.encoding = Encodings.wav then
    let data := audio.contents
    let wav_file := stemOf audio.file ++ ".wav"
    let fs1 := FS.setF fs wav_file
      (.wavF vc.decoder.CHANNELS (vc.decoder.SAMPLE_SIZE / vc.decoder.CHANNELS)
        vc.decoder.SAMPLING_RATE data)
    let fs2 := FS.removeF fs1 audio.file
    match audio.on_format s.encoding with
    | .ok a2 => (fs2, .ok a2)
    | .error e => (fs2, .error e)
  else
    let new_file := stemOf audio.file ++ "." ++ s.encoding.value
    let fs1 := if FS.existsF fs new_file then FS.removeF fs new_file else fs
    if env.ffmpeg_found = false then
      (fs1, .error ⟨"ffmpeg was not found."⟩)
    else
      match env.spawn_error with
      | some ex => (fs1, .error ⟨"Popen failed: " ++ ex.1 ++ ": " ++ ex.2⟩)
      | none =>
        let fs2 := FS.setF fs1 new_file .extF
        let fs3 := FS.removeF fs2 audio.file
        match audio.on_format s.encoding with
        | .ok a2 => (fs3, .ok a2)
        | .error e => (fs3, .error e)

/-- The per-speaker loop of `Sink.cleanup`: `file.cleanup()` then
`self.format_audio(file)` for each buffer in map order.  An exception
aborts the loop immediately (the source has no try/except around it);
entries already processed keep their mutated state and the remaining
entries are untouched.  Returns the surviving map, the file system and
the propagated exception, if any. -/
def cleanupEntries (s : Sink) (vc : VoiceClient) (env : ExtEnv) :
    List (Nat × AudioData) → FS → List (Nat × AudioData) × FS × Option ClientException
  | [], fs => ([], fs, none)
  | (u, ad) :: rest, fs =>
    match ad.cleanup with
    | .error e => ((u, ad) :: rest, fs, some e)
    | .ok ad1 =>
      match s.format_audio vc fs env ad1 with
      | (fs1, .error e) => ((u, ad1) :: rest, fs1, some e)
      | (fs1, .ok ad2) =>
        match cleanupEntries s vc env rest fs1 with
        | (rest2, fs2, err) => ((u, ad2) :: rest2, fs2, err)

/-- `Sink.cleanup()` (sink.py lines 271-282): set `finished = True`,
then finalize and convert every buffer; the first exception propagates
(the trailing `secondsfiler.stop()` is scheduler teardown and has no
effect on buffers). -/
def Sink.cleanup (s : Sink) (vc : VoiceClient) (fs : FS) (env : ExtEnv) :
    Sink × FS × Option ClientException :=
  let s1 : Sink := { s with finished := true }
  match cleanupEntries s1 vc env s1.audio_data fs with
  | (entries, fs1, err) => ({ s1 with audio_data := entries }, fs1, err)

/-- `Sink.get_files()`: the current buffer file paths (`os.path.realpath`
is the identity on the absolute, symlink-free paths the sink builds). -/
def Sink.get_files (s : Sink) : List String :=
  s.audio_data.map (fun p => p.2.file)

/-- A sequence of `AudioData.write` calls on one buffer: each element is
the frame payload together with the success flag of the underlying
`file.write` (`false` = the swallowed `ValueError` case). -/
def AudioData.writeSeq (a : AudioData) : List (List Nat × Bool) → AudioData
  | [] => a
  | (d, w) :: rest =>
    match a.write d w with
    | .ok a2 => a2.writeSeq rest
    | .error _ => a.writeSeq rest

/-!
## Theorems
-/

theorem lookup_cons_self {β : Type} (l : List (Nat × β)) (u : Nat) (v : β) :
    List.lookup u ((u, v) :: l) = some v := by
  simp [List.lookup]

theorem lookup_append_of_none {β : Type} {l : List (Nat × β)} (l₂ : List (Nat × β))
    {u : Nat} (h : List.lookup u l = none) :
    List.lookup u (l ++ l₂) = List.lookup u l₂ := by
  induction l with
  | nil => simp
  | cons p t ih =>
    rw [List.cons_append]
    cases hb : (u == p.1) with
    | true =>
      exfalso
      rw [show p = (p.1, p.2) from rfl] at h
      simp [List.lookup, hb] at h
    | false =>
      rw [show p = (p.1, p.2) from rfl] at h ⊢
      simp only [List.lookup, hb] at h ⊢
      exact ih h

theorem updateA_of_lookup_none {l : List (Nat × AudioData)} {u : Nat} (v : AudioData)
    (h : List.lookup u l = none) : updateA l u v = l := by
  induction l with
  | nil => rfl
  | cons p t ih =>
    cases hb : (u == p.1) with
    | true =>
      exfalso
      rw [show p = (p.1, p.2) from rfl] at h
      simp [List.lookup, hb] at h
    | false =>
      rw [show p = (p.1, p.2) from rfl] at h
      simp only [List.lookup, hb] at h
      have hne : p.1 ≠ u := by
        intro he
        rw [he] at hb
        simp at hb
      simp only [updateA, List.map_cons, if_neg hne]
      have := ih h
      simp only [updateA] at this
      rw [this]

theorem updateA_append (l l₂ : List (Nat × AudioData)) (u : Nat) (v : AudioData) :
    updateA (l ++ l₂) u v = updateA l u v ++ updateA l₂ u v := by
  simp [updateA]

/-- A successful write on an open buffer adds exactly the payload. -/
theorem write_open_true (a : AudioData) (d : List Nat) (h : a.finished = false) :
    a.write d true =
      .ok { a with size := a.size + d.length, contents := a.contents ++ d } := by
  simp [AudioData.write, h]

/-- A swallowed underlying write failure leaves the buffer unchanged. -/
theorem write_open_false (a : AudioData) (d : List Nat) (h : a.finished = false) :
    a.write d false = .ok a := by
  simp [AudioData.write, h]

theorem writeSeq_open (ws : List (List Nat × Bool)) :
    ∀ a : AudioData, a.finished = false →
      (a.writeSeq ws).finished = false ∧
      (a.writeSeq ws).size =
        a.size + ((ws.filter (fun p => p.2)).map (fun p => p.1.length)).sum := by
  induction ws with
  | nil => intro a h; simp [AudioData.writeSeq, h]
  | cons p rest ih =>
    intro a h
    obtain ⟨d, w⟩ := p
    cases w with
    | false =>
      have hw := write_open_false a d h
      simp only [AudioData.writeSeq, hw]
      have := ih a h
      simpa using this
    | true =>
      have hw := write_open_true a d h
      simp only [AudioData.writeSeq, hw]
      have hrec := ih { a with size := a.size + d.length, contents := a.contents ++ d } h
      refine ⟨hrec.1, ?_⟩
      rw [hrec.2]
      simp
      omega

theorem writeSeq_append (l₁ l₂ : List (List Nat × Bool)) :
    ∀ a : AudioData, a.finished = false →
      a.writeSeq (l₁ ++ l₂) = (a.writeSeq l₁).writeSeq l₂ := by
  induction l₁ with
  | nil => intro a _; rfl
  | cons p rest ih =>
    intro a h
    obtain ⟨d, w⟩ := p
    rw [List.cons_append]
    cases w with
    | false =>
      have hw := write_open_false a d h
      simp only [AudioData.writeSeq, hw]
      exact ih a h
    | true =>
      have hw := write_open_true a d h
      simp only [AudioData.writeSeq, hw]
      exact ih _ h

/-- C4: for any sequence of writes routed to one open speaker buffer,
the reported size (`__len__`, i.e. `_size`) equals the starting size
plus the sum of the payload sizes of the writes whose underlying
`file.write` succeeded (quota-dropped frames never reach
`AudioData.write`, and a swallowed `ValueError` write adds nothing),
and the reported size is monotonically non-decreasing across the
sequence while the buffer is open. -/
theorem c4_size_accounting (a : AudioData) (ws : List (List Nat × Bool))
    (h : a.finished = false) :
    (a.writeSeq ws).size =
      a.size + ((ws.filter (fun p => p.2)).map (fun p => p.1.length)).sum ∧
    ∀ l₁ l₂, ws = l₁ ++ l₂ → (a.writeSeq l₁).size ≤ (a.writeSeq ws).size := by
  refine ⟨(writeSeq_open ws a h).2, ?_⟩
  intro l₁ l₂ hws
  subst hws
  rw [writeSeq_append l₁ l₂ a h]
  have h1 := writeSeq_open l₁ a h
  have h2 := writeSeq_open l₂ (a.writeSeq l₁) h1.1
  omega

/-- C4 witness at a concrete buffer and write sequence. -/
theorem c4_size_accounting_witness :
    ((AudioData.init "/tmp/rec/42-0.pcm").writeSeq
        [([1, 2], true), ([3], false), ([4, 5, 6], true)]).size =
      (AudioData.init "/tmp/rec/42-0.pcm").size +
        (([([1, 2], true), ([3], false), ([4, 5, 6], true)].filter
            (fun p => p.2)).map (fun p => p.1.length)).sum ∧
    ((AudioData.init "/tmp/rec/42-0.pcm").writeSeq [([1, 2], true)]).size ≤
      ((AudioData.init "/tmp/rec/42-0.pcm").writeSeq
        [([1, 2], true), ([3], false), ([4, 5, 6], true)]).size :=
  ⟨(c4_size_accounting (AudioData.init "/tmp/rec/42-0.pcm")
      [([1, 2], true), ([3], false), ([4, 5, 6], true)] rfl).1,
   (c4_size_accounting (AudioData.init "/tmp/rec/42-0.pcm")
      [([1, 2], true), ([3], false), ([4, 5, 6], true)] rfl).2
      [([1, 2], true)] [([3], false), ([4, 5, 6], true)] rfl⟩

/-- C6: every mutating operation on a finished speaker buffer fails
with the `AlreadyFinalized` exception and produces no new state:
`write` after `cleanup` errors (never partially writes), a second
`cleanup` errors, and `cleanup` of an open buffer closes it exactly
once, preserving its size and contents. -/
theorem c6_already_finalized (a : AudioData) (data : List Nat) (wr : Bool) :
    (a.finished = true →
      a.write data wr = .error ⟨"This AudioData is already finished writing."⟩ ∧
      a.cleanup = .error ⟨"This AudioData is already finished writing."⟩) ∧
    (a.finished = false →
      a.cleanup = .ok { a with finished := true } ∧
      ({ a with finished := true } : AudioData).write data wr =
        .error ⟨"This AudioData is already finished writing."⟩ ∧
      ({ a with finished := true } : AudioData).cleanup =
        .error ⟨"This AudioData is already finished writing."⟩) := by
  constructor
  · intro h
    constructor
    · simp [AudioData.write, h]
    · simp [AudioData.cleanup, h]
  · intro h
    refine ⟨by simp [AudioData.cleanup, h], by simp [AudioData.write], by simp [AudioData.cleanup]⟩

/-- C6 witness: a concrete open buffer is finalized once, and the
finalized buffer rejects both a further write and a second finalize. -/
theorem c6_already_finalized_witness :
    ({ file := "/tmp/rec/42-0.pcm", dir_path := "/tmp/rec", finished := false,
       size := 2, contents := [7, 8] } : AudioData).cleanup =
      .ok { file := "/tmp/rec/42-0.pcm", dir_path := "/tmp/rec", finished := true,
            size := 2, contents := [7, 8] } ∧
    ({ file := "/tmp/rec/42-0.pcm", dir_path := "/tmp/rec", finished := true,
       size := 2, contents := [7, 8] } : AudioData).write [9] true =
      .error ⟨"This AudioData is already finished writing."⟩ ∧
    ({ file := "/tmp/rec/42-0.pcm", dir_path := "/tmp/rec", finished := true,
       size := 2, contents := [7, 8] } : AudioData).cleanup =
      .error ⟨"This AudioData is already finished writing."⟩ :=
  (c6_already_finalized
    { file := "/tmp/rec/42-0.pcm", dir_path := "/tmp/rec", finished := false,
      size := 2, contents := [7, 8] } [9] true).2 rfl

/-- Reduction of `Sink.write` when the speaker already has a buffer:
the quota test and, if it passes, the append. -/
theorem write_existing (s : Sink) (vc : VoiceClient) (data : List Nat) (user : Nat)
    (now : String) (wr : Bool) (ad : AudioData)
    (hf : filter_allows s.filtered_users user = true)
    (hl : List.lookup user s.audio_data = some ad) :
    Sink.write s vc data user now wr =
      if s.max_size = 0 ∨ ad.size + 3840 ≤ s.max_size then
        match ad.write data wr with
        | .error e => .error e
        | .ok ad2 => .ok { s with audio_data := updateA s.audio_data user ad2 }
      else .ok s := by
  simp only [Sink.write, hf, hl, Option.isNone_some, Bool.false_eq_true, if_false, if_true]

/-- `Sink.write` for an unseen speaker when the quota admits the frame
(either no quota, or `0 + 3840 ≤ max_size` against the fresh empty
buffer) and the underlying write succeeds: the buffer is created at
`{file_path}/{ssrc}-{now}.pcm` and the payload is appended to it. -/
theorem write_new_pass_true (s : Sink) (vc : VoiceClient) (data : List Nat) (user : Nat)
    (now : String)
    (hf : filter_allows s.filtered_users user = true)
    (hl : List.lookup user s.audio_data = none)
    (hq : s.max_size = 0 ∨ 3840 ≤ s.max_size) :
    Sink.write s vc data user now true =
      .ok { s with audio_data := s.audio_data ++
        [(user,
          { file := s.file_path ++ "/" ++ toString (vc.get_ssrc user) ++ "-" ++ now ++ ".pcm",
            dir_path := dirOf (s.file_path ++ "/" ++ toString (vc.get_ssrc user) ++ "-" ++ now ++ ".pcm"),
            finished := false, size := data.length, contents := data })] } := by
  have hlook : List.lookup user
      (s.audio_data ++
        [(user, AudioData.init (s.file_path ++ "/" ++ toString (vc.get_ssrc user) ++ "-" ++ now ++ ".pcm"))]) =
      some (AudioData.init (s.file_path ++ "/" ++ toString (vc.get_ssrc user) ++ "-" ++ now ++ ".pcm")) := by
    rw [lookup_append_of_none _ hl, lookup_cons_self]
  have hupd : ∀ a v : AudioData, updateA (s.audio_data ++ [(user, a)]) user v =
      s.audio_data ++ [(user, v)] := by
    intro a v
    rw [updateA_append, updateA_of_lookup_none _ hl]
    simp [updateA]
  have hw := write_open_true
    (AudioData.init (s.file_path ++ "/" ++ toString (vc.get_ssrc user) ++ "-" ++ now ++ ".pcm")) data rfl
  simp only [Sink.write, hf, hl, Option.isNone_none, if_true, hlook, hw]
  split
  · simp [hupd, AudioData.init]
  · rename_i hc
    exfalso
    apply hc
    right
    simpa [AudioData.init] using hq.elim (fun h0 => by omega) id

/-- `Sink.write` for an unseen speaker when the quota admits the frame
but the underlying `file.write` raises the swallowed `ValueError`: the
empty buffer is created and registered, nothing is appended. -/
theorem write_new_pass_false (s : Sink) (vc : VoiceClient) (data : List Nat) (user : Nat)
    (now : String)
    (hf : filter_allows s.filtered_users user = true)
    (hl : List.lookup user s.audio_data = none)
    (hq : s.max_size = 0 ∨ 3840 ≤ s.max_size) :
    Sink.write s vc data user now false =
      .ok { s with audio_data := s.audio_data ++
        [(user, AudioData.init
          (s.file_path ++ "/" ++ toString (vc.get_ssrc user) ++ "-" ++ now ++ ".pcm"))] } := by
  have hlook : List.lookup user
      (s.audio_data ++
        [(user, AudioData.init (s.file_path ++ "/" ++ toString (vc.get_ssrc user) ++ "-" ++ now ++ ".pcm"))]) =
      some (AudioData.init (s.file_path ++ "/" ++ toString (vc.get_ssrc user) ++ "-" ++ now ++ ".pcm")) := by
    rw [lookup_append_of_none _ hl, lookup_cons_self]
  have hupd : ∀ v : AudioData, updateA
      (s.audio_data ++
        [(user, AudioData.init (s.file_path ++ "/" ++ toString (vc.get_ssrc user) ++ "-" ++ now ++ ".pcm"))])
      user v = s.audio_data ++ [(user, v)] := by
    intro v
    rw [updateA_append, updateA_of_lookup_none _ hl]
    simp [updateA]
  have hw := write_open_false
    (AudioData.init (s.file_path ++ "/" ++ toString (vc.get_ssrc user) ++ "-" ++ now ++ ".pcm")) data rfl
  simp only [Sink.write, hf, hl, Option.isNone_none, if_true, hlook, hw]
  split
  · simp [hupd]
  · rename_i hc
    exfalso
    apply hc
    right
    simpa [AudioData.init] using hq.elim (fun h0 => by omega) id

/-- `Sink.write` for an unseen speaker when the quota then rejects the
frame (`max_size` nonzero and `< 0 + 3840`): the empty buffer has
nevertheless been created and registered, and the frame is dropped
silently. -/
theorem write_new_drop (s : Sink) (vc : VoiceClient) (data : List Nat) (user : Nat)
    (now : String) (wr : Bool)
    (hf : filter_allows s.filtered_users user = true)
    (hl : List.lookup user s.audio_data = none)
    (hn : s.max_size ≠ 0) (hq : s.max_size < 3840) :
    Sink.write s vc data user now wr =
      .ok { s with audio_data := s.audio_data ++
        [(user, AudioData.init
          (s.file_path ++ "/" ++ toString (vc.get_ssrc user) ++ "-" ++ now ++ ".pcm"))] } := by
  have hlook : List.lookup user
      (s.audio_data ++
        [(user, AudioData.init (s.file_path ++ "/" ++ toString (vc.get_ssrc user) ++ "-" ++ now ++ ".pcm"))]) =
      some (AudioData.init (s.file_path ++ "/" ++ toString (vc.get_ssrc user) ++ "-" ++ now ++ ".pcm")) := by
    rw [lookup_append_of_none _ hl, lookup_cons_self]
  simp only [Sink.write, hf, hl, Option.isNone_none, if_true, hlook]
  split
  · rename_i hc
    exfalso
    rcases hc with h0 | hle
    · exact hn h0
    · simp [AudioData.init] at hle
      omega
  · rfl

/-- C1 (amended): with a nonzero `max_size = N`, a frame routed to an
existing open buffer is dropped silently exactly when the current
byte count of the buffer plus the hard-coded assumed frame size 3840
would exceed N (the actual incoming payload size is not consulted); when
admitted, the whole payload is appended, so buffers never exceed N as
long as every payload is at most 3840 bytes. -/
theorem c1_quota_fixed_frame (s : Sink) (vc : VoiceClient) (data : List Nat) (user : Nat)
    (now : String) (ad : AudioData)
    (hl : List.lookup user s.audio_data = some ad)
    (hf : filter_allows s.filtered_users user = true)
    (hn : s.max_size ≠ 0) (hfin : ad.finished = false) :
    (s.max_size < ad.size + 3840 → Sink.write s vc data user now true = .ok s) ∧
    (ad.size + 3840 ≤ s.max_size →
      Sink.write s vc data user now true =
        .ok { s with audio_data := (updateA s.audio_data user
                (AudioData.mk ad.file ad.dir_path ad.finished (ad.size + data.length)
                  (ad.contents ++ data))) } ∧
      (data.length ≤ 3840 → ad.size + data.length ≤ s.max_size)) := by
  rw [write_existing s vc data user now true ad hf hl]
  constructor
  · intro hq
    rw [if_neg (by omega)]
  · intro hq
    refine ⟨?_, by intro hd; omega⟩
    rw [if_pos (Or.inr hq), write_open_true ad data hfin]

/-- C1 counterexample: `max_size = 3840`, empty buffer, incoming
payload of 3841 bytes.  The claim says the frame is dropped because
`current (0) + frame size (3841)` exceeds 3840 and that no buffer ever
exceeds 3840 bytes; the code admits the frame (its quota test uses the
constant 3840, not the payload size) and the buffer ends at 3841 bytes,
exceeding the configured maximum. -/
theorem c1_counterexample :
    (3840 : Nat) < 0 + 3841 ∧
    (Sink.write
        { filtered_users := [], max_size := 3840, finished := false, encoding := .pcm,
          audio_data := [(1, AudioData.init "/tmp/rec/42-0.pcm")], file_path := "/tmp/rec" }
        ⟨fun _ => 42, false, ⟨2, 4, 48000⟩⟩ (List.replicate 3841 0) 1 "0" true).map
      (fun t => (List.lookup 1 t.audio_data).map AudioData.size) = .ok (some 3841) ∧
    (3840 : Nat) < 3841 := by
  refine ⟨by omega, ?_, by omega⟩
  have hred := write_existing
    { filtered_users := [], max_size := 3840, finished := false, encoding := .pcm,
      audio_data := [(1, AudioData.init "/tmp/rec/42-0.pcm")], file_path := "/tmp/rec" }
    ⟨fun _ => 42, false, ⟨2, 4, 48000⟩⟩ (List.replicate 3841 0) 1 "0" true
    (AudioData.init "/tmp/rec/42-0.pcm") (by rfl) (by rfl)
  rw [hred, if_pos (Or.inr (by simp [AudioData.init])), write_open_true _ _ rfl,
    List.length_replicate]
  have hupd1 : ∀ v : AudioData,
      updateA [(1, AudioData.init "/tmp/rec/42-0.pcm")] 1 v = [(1, v)] := by
    intro v
    simp [updateA]
  dsimp only
  rw [hupd1]
  simp only [Except.map, lookup_cons_self, Option.map, AudioData.init]

/-- C1 witness: a drop at `max_size = 3840` with a buffer already
holding 1000 bytes, and an admission at `max_size = 7680` with an empty
buffer and a 2-byte payload that stays within the maximum. -/
theorem c1_quota_fixed_frame_witness :
    Sink.write
        { filtered_users := [], max_size := 3840, finished := false, encoding := .pcm,
          audio_data := [(1, { file := "/tmp/rec/42-0.pcm", dir_path := "/tmp/rec", finished := false, size := 1000, contents := [] })],
          file_path := "/tmp/rec" }
        ⟨fun _ => 42, false, ⟨2, 4, 48000⟩⟩ [5] 1 "0" true =
      .ok { filtered_users := [], max_size := 3840, finished := false, encoding := .pcm,
            audio_data := [(1, { file := "/tmp/rec/42-0.pcm", dir_path := "/tmp/rec", finished := false, size := 1000, contents := [] })],
            file_path := "/tmp/rec" } ∧
    Sink.write
        { filtered_users := [], max_size := 7680, finished := false, encoding := .pcm,
          audio_data := [(1, { file := "/tmp/rec/42-0.pcm", dir_path := "/tmp/rec", finished := false, size := 0, contents := [] })],
          file_path := "/tmp/rec" }
        ⟨fun _ => 42, false, ⟨2, 4, 48000⟩⟩ [5, 6] 1 "0" true =
      .ok { filtered_users := [], max_size := 7680, finished := false, encoding := .pcm,
            audio_data := (updateA [(1, { file := "/tmp/rec/42-0.pcm", dir_path := "/tmp/rec", finished := false, size := 0, contents := [] })] 1 (AudioData.mk "/tmp/rec/42-0.pcm" "/tmp/rec" false (0 + 2) ([] ++ [5, 6]))),
            file_path := "/tmp/rec" } ∧
    (0 : Nat) + 2 ≤ 7680 :=
  ⟨(c1_quota_fixed_frame
      { filtered_users := [], max_size := 3840, finished := false, encoding := .pcm,
        audio_data := [(1, { file := "/tmp/rec/42-0.pcm", dir_path := "/tmp/rec", finished := false, size := 1000, contents := [] })],
        file_path := "/tmp/rec" }
      ⟨fun _ => 42, false, ⟨2, 4, 48000⟩⟩ [5] 1 "0"
      { file := "/tmp/rec/42-0.pcm", dir_path := "/tmp/rec", finished := false, size := 1000, contents := [] }
      rfl rfl (by decide) rfl).1 (by decide),
   ((c1_quota_fixed_frame
      { filtered_users := [], max_size := 7680, finished := false, encoding := .pcm,
        audio_data := [(1, { file := "/tmp/rec/42-0.pcm", dir_path := "/tmp/rec", finished := false, size := 0, contents := [] })],
        file_path := "/tmp/rec" }
      ⟨fun _ => 42, false, ⟨2, 4, 48000⟩⟩ [5, 6] 1 "0"
      { file := "/tmp/rec/42-0.pcm", dir_path := "/tmp/rec", finished := false, size := 0, contents := [] }
      rfl rfl (by decide) rfl).2 (by decide)).1,
   (by omega)⟩

/-- C3 counterexample: a sink whose `finished` flag is already true
accepts a frame for a speaker with no existing buffer: `Sink.write`
creates the buffer and appends the 3-byte payload.  The claim says that
once `finished` is set no frame ever appends data or creates a buffer. -/
theorem c3_counterexample :
    ({ filtered_users := [], max_size := 0, finished := true, encoding := .wav,
       audio_data := [], file_path := "/tmp/rec" } : Sink).finished = true ∧
    Sink.write
        { filtered_users := [], max_size := 0, finished := true, encoding := .wav,
          audio_data := [], file_path := "/tmp/rec" }
        ⟨fun _ => 42, true, ⟨2, 4, 48000⟩⟩ [1, 2, 3] 7 "9" true =
      .ok { filtered_users := [], max_size := 0, finished := true, encoding := .wav,
            audio_data := [(7, { file := "/tmp/rec/42-9.pcm", dir_path := "/tmp/rec", finished := false, size := 3, contents := [1, 2, 3] })],
            file_path := "/tmp/rec" } :=
  ⟨rfl, by rfl⟩

/-- C3 (amended): `Sink.write` never consults the sink-level `finished`
flag.  After `cleanup`, a frame for a speaker whose buffer was
finalized raises `AlreadyFinalized` (when the quota admits it) and
appends nothing; but a frame for a speaker with no buffer creates a
fresh buffer and appends its payload (shown here with the quota
disabled), even though the sink is finished. -/
theorem c3_finished_flag_not_checked (s : Sink) (vc : VoiceClient) (data : List Nat)
    (user : Nat) (now : String) (ad : AudioData)
    (hs : s.finished = true) :
    (List.lookup user s.audio_data = some ad → ad.finished = true →
      filter_allows s.filtered_users user = true →
      (s.max_size = 0 ∨ ad.size + 3840 ≤ s.max_size) →
      Sink.write s vc data user now true =
        .error ⟨"This AudioData is already finished writing."⟩) ∧
    (List.lookup user s.audio_data = none →
      filter_allows s.filtered_users user = true → s.max_size = 0 →
      Sink.write s vc data user now true =
        .ok { s with audio_data := s.audio_data ++
          [(user,
            { file := s.file_path ++ "/" ++ toString (vc.get_ssrc user) ++ "-" ++ now ++ ".pcm",
              dir_path := dirOf (s.file_path ++ "/" ++ toString (vc.get_ssrc user) ++ "-" ++ now ++ ".pcm"),
              finished := false, size := data.length, contents := data })] }) := by
  constructor
  · intro hl had hf hq
    rw [write_existing s vc data user now true ad hf hl, if_pos hq]
    simp [AudioData.write, had]
  · intro hl hf hmax
    exact write_new_pass_true s vc data user now hf hl (Or.inl hmax)

/-- C3 witness: on a finished sink holding one finalized buffer for
speaker 1, a frame for speaker 1 raises `AlreadyFinalized`, while a
frame for the unseen speaker 7 creates a buffer and appends. -/
theorem c3_finished_flag_not_checked_witness :
    Sink.write
        { filtered_users := [], max_size := 0, finished := true, encoding := .wav,
          audio_data := [(1, { file := "/tmp/rec/41-3.pcm", dir_path := "/tmp/rec", finished := true, size := 2, contents := [7, 8] })],
          file_path := "/tmp/rec" }
        ⟨fun _ => 42, true, ⟨2, 4, 48000⟩⟩ [1, 2, 3] 1 "9" true =
      .error ⟨"This AudioData is already finished writing."⟩ ∧
    Sink.write
        { filtered_users := [], max_size := 0, finished := true, encoding := .wav,
          audio_data := [(1, { file := "/tmp/rec/41-3.pcm", dir_path := "/tmp/rec", finished := true, size := 2, contents := [7, 8] })],
          file_path := "/tmp/rec" }
        ⟨fun _ => 42, true, ⟨2, 4, 48000⟩⟩ [1, 2, 3] 7 "9" true =
      .ok { filtered_users := [], max_size := 0, finished := true, encoding := .wav,
            audio_data :=
              [(1, { file := "/tmp/rec/41-3.pcm", dir_path := "/tmp/rec", finished := true, size := 2, contents := [7, 8] }),
               (7, { file := "/tmp/rec/42-9.pcm", dir_path := "/tmp/rec", finished := false, size := 3, contents := [1, 2, 3] })],
            file_path := "/tmp/rec" } :=
  ⟨(c3_finished_flag_not_checked
      { filtered_users := [], max_size := 0, finished := true, encoding := .wav,
        audio_data := [(1, { file := "/tmp/rec/41-3.pcm", dir_path := "/tmp/rec", finished := true, size := 2, contents := [7, 8] })],
        file_path := "/tmp/rec" }
      ⟨fun _ => 42, true, ⟨2, 4, 48000⟩⟩ [1, 2, 3] 1 "9"
      { file := "/tmp/rec/41-3.pcm", dir_path := "/tmp/rec", finished := true, size := 2, contents := [7, 8] }
      rfl).1 (by rfl) rfl rfl (Or.inl rfl),
   (c3_finished_flag_not_checked
      { filtered_users := [], max_size := 0, finished := true, encoding := .wav,
        audio_data := [(1, { file := "/tmp/rec/41-3.pcm", dir_path := "/tmp/rec", finished := true, size := 2, contents := [7, 8] })],
        file_path := "/tmp/rec" }
      ⟨fun _ => 42, true, ⟨2, 4, 48000⟩⟩ [1, 2, 3] 7 "9"
      { file := "/tmp/rec/41-3.pcm", dir_path := "/tmp/rec", finished := true, size := 2, contents := [7, 8] }
      rfl).2 (by rfl) rfl rfl⟩

/-- C9 counterexample: a transport packet whose RTP header carries
timestamp 5 is routed at wall-clock time "100.5"; the lazily created
buffer is named `42-100.5.pcm` (ssrc + wall-clock time), not
`42-5.pcm` (ssrc + frame timestamp) as the claim states. -/
theorem c9_counterexample :
    (RawData.make [0, 0, 0, 1, 0, 0, 0, 5, 0, 0, 0, 42, 9, 9] ⟨fun _ d => d⟩).timestamp = 5 ∧
    (Sink.write
        { filtered_users := [], max_size := 0, finished := false, encoding := .pcm,
          audio_data := [], file_path := "/tmp/rec" }
        ⟨fun _ => 42, false, ⟨2, 4, 48000⟩⟩
        (RawData.make [0, 0, 0, 1, 0, 0, 0, 5, 0, 0, 0, 42, 9, 9] ⟨fun _ d => d⟩).decrypted_data
        7 "100.5" true).map
      (fun t => (List.lookup 7 t.audio_data).map AudioData.file) =
      .ok (some "/tmp/rec/42-100.5.pcm") ∧
    ("/tmp/rec/42-100.5.pcm" : String) ≠ "/tmp/rec/42-5.pcm" := by
  refine ⟨by rfl, by rfl, by decide⟩

/-- C9 (amended): for the first frame of an unseen speaker that passes
the admission filter, `Sink.write` lazily creates the buffer of that speaker
at `{file_path}/{ssrc}-{now}.pcm`, where `ssrc` is the transport source
id resolved for the speaker and `now` is the wall-clock UTC timestamp
at the moment of the write (`datetime.datetime.utcnow().timestamp()`),
not the RTP timestamp of the frame; this holds whether the quota then admits
or drops the frame. -/
theorem c9_lazy_path_wallclock (s : Sink) (vc : VoiceClient) (data : List Nat)
    (user : Nat) (now : String) (wr : Bool)
    (hf : filter_allows s.filtered_users user = true)
    (hl : List.lookup user s.audio_data = none) :
    (Sink.write s vc data user now wr).map
        (fun t => (List.lookup user t.audio_data).map AudioData.file) =
      .ok (some (s.file_path ++ "/" ++ toString (vc.get_ssrc user) ++ "-" ++ now ++ ".pcm")) := by
  by_cases hq : s.max_size = 0 ∨ 3840 ≤ s.max_size
  · cases wr
    · rw [write_new_pass_false s vc data user now hf hl hq]
      simp only [Except.map]
      rw [lookup_append_of_none _ hl, lookup_cons_self]
      rfl
    · rw [write_new_pass_true s vc data user now hf hl hq]
      simp only [Except.map]
      rw [lookup_append_of_none _ hl, lookup_cons_self]
      rfl
  · push_neg at hq
    rw [write_new_drop s vc data user now wr hf hl hq.1 (by omega)]
    simp only [Except.map]
    rw [lookup_append_of_none _ hl, lookup_cons_self]
    rfl

/-- C9 witness at a concrete sink and unseen speaker. -/
theorem c9_lazy_path_wallclock_witness :
    (Sink.write
        { filtered_users := [], max_size := 0, finished := false, encoding := .pcm,
          audio_data := [], file_path := "/tmp/rec" }
        ⟨fun _ => 42, false, ⟨2, 4, 48000⟩⟩ [1] 7 "t0" true).map
      (fun t => (List.lookup 7 t.audio_data).map AudioData.file) =
      .ok (some ("/tmp/rec" ++ "/" ++ toString 42 ++ "-" ++ "t0" ++ ".pcm")) :=
  c9_lazy_path_wallclock
    { filtered_users := [], max_size := 0, finished := false, encoding := .pcm,
      audio_data := [], file_path := "/tmp/rec" }
    ⟨fun _ => 42, false, ⟨2, 4, 48000⟩⟩ [1] 7 "t0" true rfl rfl

/-- C10: when a frame passes the admission filter for a speaker with no
buffer and the quota would drop it (`max_size` nonzero, `< 3840`), the
buffer is still created first — a fresh empty `AudioData` registered in
the speaker map — and its path appears in the `get_files` snapshot,
even though the frame itself is dropped. -/
theorem c10_buffer_created_before_quota (s : Sink) (vc : VoiceClient) (data : List Nat)
    (user : Nat) (now : String) (wr : Bool)
    (hf : filter_allows s.filtered_users user = true)
    (hl : List.lookup user s.audio_data = none)
    (hn : s.max_size ≠ 0) (hq : s.max_size < 3840) :
    Sink.write s vc data user now wr =
      .ok { s with audio_data := s.audio_data ++
        [(user, AudioData.init
          (s.file_path ++ "/" ++ toString (vc.get_ssrc user) ++ "-" ++ now ++ ".pcm"))] } ∧
    (AudioData.init
      (s.file_path ++ "/" ++ toString (vc.get_ssrc user) ++ "-" ++ now ++ ".pcm")).size = 0 ∧
    (AudioData.init
      (s.file_path ++ "/" ++ toString (vc.get_ssrc user) ++ "-" ++ now ++ ".pcm")).contents = [] ∧
    (s.file_path ++ "/" ++ toString (vc.get_ssrc user) ++ "-" ++ now ++ ".pcm") ∈
      Sink.get_files { s with audio_data := s.audio_data ++
        [(user, AudioData.init
          (s.file_path ++ "/" ++ toString (vc.get_ssrc user) ++ "-" ++ now ++ ".pcm"))] } := by
  refine ⟨write_new_drop s vc data user now wr hf hl hn hq, rfl, rfl, ?_⟩
  simp [Sink.get_files, AudioData.init]

/-- C10 witness: quota of 1 byte, unseen speaker, dropped frame; the
empty buffer is registered and listed. -/
theorem c10_buffer_created_before_quota_witness :
    Sink.write
        { filtered_users := [], max_size := 1, finished := false, encoding := .pcm,
          audio_data := [], file_path := "/tmp/rec" }
        ⟨fun _ => 42, false, ⟨2, 4, 48000⟩⟩ [9, 9] 7 "t0" true =
      .ok { filtered_users := [], max_size := 1, finished := false, encoding := .pcm,
            audio_data := [] ++ [(7, AudioData.init ("/tmp/rec" ++ "/" ++ toString 42 ++ "-" ++ "t0" ++ ".pcm"))],
            file_path := "/tmp/rec" } ∧
    (AudioData.init ("/tmp/rec" ++ "/" ++ toString 42 ++ "-" ++ "t0" ++ ".pcm")).size = 0 ∧
    (AudioData.init ("/tmp/rec" ++ "/" ++ toString 42 ++ "-" ++ "t0" ++ ".pcm")).contents = [] ∧
    ("/tmp/rec" ++ "/" ++ toString 42 ++ "-" ++ "t0" ++ ".pcm") ∈
      Sink.get_files
        { filtered_users := [], max_size := 1, finished := false, encoding := .pcm,
          audio_data := [] ++ [(7, AudioData.init ("/tmp/rec" ++ "/" ++ toString 42 ++ "-" ++ "t0" ++ ".pcm"))],
          file_path := "/tmp/rec" } :=
  c10_buffer_created_before_quota
    { filtered_users := [], max_size := 1, finished := false, encoding := .pcm,
      audio_data := [], file_path := "/tmp/rec" }
    ⟨fun _ => 42, false, ⟨2, 4, 48000⟩⟩ [9, 9] 7 "t0" true rfl rfl
    (by decide) (by decide)

/-- The buffers produced by `Sink.write` depend only on the speaker
map, the quota, the temp root and the outcome of the admission filter;
the remaining sink fields never influence what is written. -/
theorem write_map_audio (s t : Sink) (vc : VoiceClient) (data : List Nat) (user : Nat)
    (now : String) (wr : Bool)
    (h1 : s.audio_data = t.audio_data) (h2 : s.max_size = t.max_size)
    (h3 : s.file_path = t.file_path)
    (h4 : filter_allows s.filtered_users user = true)
    (h5 : filter_allows t.filtered_users user = true) :
    (Sink.write s vc data user now wr).map Sink.audio_data =
      (Sink.write t vc data user now wr).map Sink.audio_data := by
  obtain ⟨fu, ms, fin, enc, ad, fp⟩ := s
  obtain ⟨fu2, ms2, fin2, enc2, ad2, fp2⟩ := t
  replace h1 : ad = ad2 := h1
  replace h2 : ms = ms2 := h2
  replace h3 : fp = fp2 := h3
  subst h1
  subst h2
  subst h3
  simp only [Sink.write, h4, h5]
  cases hL : List.lookup user ad with
  | none =>
    simp only [hL, Option.isNone_none, if_true]
    rw [lookup_append_of_none [(user,
        AudioData.init (fp ++ "/" ++ toString (vc.get_ssrc user) ++ "-" ++ now ++ ".pcm"))] hL,
      lookup_cons_self]
    by_cases hqq : ms = 0 ∨
        (AudioData.init (fp ++ "/" ++ toString (vc.get_ssrc user) ++ "-" ++ now ++ ".pcm")).size +
          3840 ≤ ms
    · simp only [if_pos hqq]
      cases hW : (AudioData.init
          (fp ++ "/" ++ toString (vc.get_ssrc user) ++ "-" ++ now ++ ".pcm")).write data wr with
      | error e => simp [hW, Except.map]
      | ok adw => simp [hW, Except.map]
    · simp only [if_neg hqq]
      simp [Except.map]
  | some adv =>
    simp only [hL, Option.isNone_some, Bool.false_eq_true, if_false]
    by_cases hqq : ms = 0 ∨ adv.size + 3840 ≤ ms
    · simp only [if_pos hqq]
      cases hW : adv.write data wr with
      | error e => simp [hW, Except.map]
      | ok adw => simp [hW, Except.map]
    · simp only [if_neg hqq]
      simp [Except.map]

/-- C5: the admission decision of `Sink.write` is exactly "allow-list
empty or speaker a member": the filter test is literally that
disjunction; a denied frame leaves the sink untouched (no buffer is
written); with allow-list `[A]`, a frame for any other speaker `B` is
never written to any buffer; and a frame for `A` produces exactly the
buffers the empty-allow-list sink would produce. -/
theorem c5_admission_filter (s : Sink) (vc : VoiceClient) (data : List Nat)
    (user A : Nat) (now : String) (wr : Bool) :
    (filter_allows s.filtered_users user =
      (s.filtered_users.isEmpty || s.filtered_users.contains user)) ∧
    (filter_allows s.filtered_users user = false →
      Sink.write s vc data user now wr = .ok s) ∧
    (s.filtered_users = [A] → user ≠ A →
      Sink.write s vc data user now wr = .ok s) ∧
    (s.filtered_users = [A] →
      (Sink.write s vc data A now wr).map Sink.audio_data =
        (Sink.write { s with filtered_users := [] } vc data A now wr).map Sink.audio_data) := by
  refine ⟨rfl, ?_, ?_, ?_⟩
  · intro h
    simp [Sink.write, h]
  · intro hA hne
    have h : filter_allows s.filtered_users user = false := by
      simp [filter_allows, hA]
      omega
    simp [Sink.write, h]
  · intro hA
    apply write_map_audio
    · rfl
    · rfl
    · rfl
    · simp [filter_allows, hA]
    · simp [filter_allows]

/-- C5 witness: allow-list `[1]` denies speaker 2 and leaves the sink
unchanged, and admits speaker 1 with exactly the buffers the
unrestricted sink would produce. -/
theorem c5_admission_filter_witness :
    (filter_allows [1] 2 = ([1].isEmpty || List.contains [1] 2)) ∧
    Sink.write
        { filtered_users := [1], max_size := 0, finished := false, encoding := .pcm,
          audio_data := [], file_path := "/tmp/rec" }
        ⟨fun _ => 42, false, ⟨2, 4, 48000⟩⟩ [3] 2 "t0" true =
      .ok { filtered_users := [1], max_size := 0, finished := false, encoding := .pcm,
            audio_data := [], file_path := "/tmp/rec" } ∧
    (Sink.write
        { filtered_users := [1], max_size := 0, finished := false, encoding := .pcm,
          audio_data := [], file_path := "/tmp/rec" }
        ⟨fun _ => 42, false, ⟨2, 4, 48000⟩⟩ [3] 1 "t0" true).map Sink.audio_data =
      (Sink.write
        { filtered_users := [], max_size := 0, finished := false, encoding := .pcm,
          audio_data := [], file_path := "/tmp/rec" }
        ⟨fun _ => 42, false, ⟨2, 4, 48000⟩⟩ [3] 1 "t0" true).map Sink.audio_data :=
  ⟨(c5_admission_filter
      { filtered_users := [1], max_size := 0, finished := false, encoding := .pcm,
        audio_data := [], file_path := "/tmp/rec" }
      ⟨fun _ => 42, false, ⟨2, 4, 48000⟩⟩ [3] 2 1 "t0" true).1,
   (c5_admission_filter
      { filtered_users := [1], max_size := 0, finished := false, encoding := .pcm,
        audio_data := [], file_path := "/tmp/rec" }
      ⟨fun _ => 42, false, ⟨2, 4, 48000⟩⟩ [3] 2 1 "t0" true).2.2.1 rfl (by decide),
   (c5_admission_filter
      { filtered_users := [1], max_size := 0, finished := false, encoding := .pcm,
        audio_data := [], file_path := "/tmp/rec" }
      ⟨fun _ => 42, false, ⟨2, 4, 48000⟩⟩ [3] 1 1 "t0" true).2.2.2 rfl⟩

theorem lookup_removeF (fs : FS) (p : String) :
    List.lookup p (FS.removeF fs p) = none := by
  induction fs with
  | nil => rfl
  | cons q t ih =>
    by_cases hq : q.1 = p
    · simpa [FS.removeF, hq] using ih
    · rw [show q = (q.1, q.2) from rfl]
      simp only [FS.removeF, List.filter_cons]
      rw [if_pos (by simpa using hq)]
      simp only [List.lookup]
      rw [show (p == q.1) = false from by simpa using fun he => hq he.symm]
      simpa [FS.removeF] using ih

/-- After the pre-spawn removal step of the external-transcoder branch,
the output path no longer exists, whatever it held before. -/
theorem existsF_after_preremove (fs : FS) (p : String) :
    FS.existsF (if FS.existsF fs p then FS.removeF fs p else fs) p = false := by
  by_cases hc : FS.existsF fs p
  · rw [if_pos hc]
    simp [FS.existsF, lookup_removeF]
  · rw [if_neg hc]
    simpa using hc

/-- C7 (amended): `format_audio` rejects with the `StillListening`
error whenever the transport still reports listening, for every
encoding path — the check precedes the dispatch on the target encoding,
so the raw/pcm no-op path and the external path are rejected exactly
like the wav-container path, and nothing is touched. -/
theorem c7_still_listening_all_paths (s : Sink) (vc : VoiceClient) (fs : FS)
    (env : ExtEnv) (audio : AudioData) (h : vc.listening = true) :
    Sink.format_audio s vc fs env audio =
      (fs, .error ⟨"Audio may only be formatted after listening is finished."⟩) := by
  simp [Sink.format_audio, h]

/-- C7 counterexample: with the target encoding `pcm` — the raw no-op
path, which reads no transport-derived parameters — `format_audio`
still rejects with `StillListening` while the transport is listening;
the rejection is not specific to the WAV-container path. -/
theorem c7_counterexample :
    ({ filtered_users := [], max_size := 0, finished := true, encoding := .pcm,
       audio_data := [], file_path := "/tmp/rec" } : Sink).encoding ≠ Encodings.wav ∧
    Sink.format_audio
        { filtered_users := [], max_size := 0, finished := true, encoding := .pcm,
          audio_data := [], file_path := "/tmp/rec" }
        ⟨fun _ => 42, true, ⟨2, 4, 48000⟩⟩ [] ⟨true, none⟩
        { file := "/tmp/rec/42-0.pcm", dir_path := "/tmp/rec", finished := true, size := 2, contents := [7, 8] } =
      ([], .error ⟨"Audio may only be formatted after listening is finished."⟩) := by
  refine ⟨by decide, by rfl⟩

/-- C7 witness: the amended theorem applied with the wav encoding. -/
theorem c7_still_listening_all_paths_witness :
    Sink.format_audio
        { filtered_users := [], max_size := 0, finished := true, encoding := .wav,
          audio_data := [], file_path := "/tmp/rec" }
        ⟨fun _ => 42, true, ⟨2, 4, 48000⟩⟩ [] ⟨true, none⟩
        { file := "/tmp/rec/42-0.pcm", dir_path := "/tmp/rec", finished := true, size := 2, contents := [7, 8] } =
      ([], .error ⟨"Audio may only be formatted after listening is finished."⟩) :=
  c7_still_listening_all_paths
    { filtered_users := [], max_size := 0, finished := true, encoding := .wav,
      audio_data := [], file_path := "/tmp/rec" }
    ⟨fun _ => 42, true, ⟨2, 4, 48000⟩⟩ [] ⟨true, none⟩
    { file := "/tmp/rec/42-0.pcm", dir_path := "/tmp/rec", finished := true, size := 2, contents := [7, 8] }
    rfl

/-- C8: on the external-transcoder path (here `mp3`), `format_audio`
first removes a pre-existing output file at the target path — so the
path no longer exists even when the subsequent spawn fails — and then:
a missing `ffmpeg` binary (`FileNotFoundError` from `Popen`) raises
exactly "ffmpeg was not found.", while any other OS-level spawn failure
(`subprocess.SubprocessError`) raises "Popen failed: <class>: <text>",
preserving the underlying diagnostic. -/
theorem c8_transcoder_errors (s : Sink) (vc : VoiceClient) (fs : FS)
    (audio : AudioData) (cls msg : String)
    (hl : vc.listening = false) (he : s.encoding = .mp3) :
    (Sink.format_audio s vc fs ⟨false, none⟩ audio =
      ((if FS.existsF fs (stemOf audio.file ++ "." ++ Encodings.value .mp3)
        then FS.removeF fs (stemOf audio.file ++ "." ++ Encodings.value .mp3) else fs),
       .error ⟨"ffmpeg was not found."⟩)) ∧
    (Sink.format_audio s vc fs ⟨true, some (cls, msg)⟩ audio =
      ((if FS.existsF fs (stemOf audio.file ++ "." ++ Encodings.value .mp3)
        then FS.removeF fs (stemOf audio.file ++ "." ++ Encodings.value .mp3) else fs),
       .error ⟨"Popen failed: " ++ cls ++ ": " ++ msg⟩)) ∧
    FS.existsF
      (if FS.existsF fs (stemOf audio.file ++ "." ++ Encodings.value .mp3)
       then FS.removeF fs (stemOf audio.file ++ "." ++ Encodings.value .mp3) else fs)
      (stemOf audio.file ++ "." ++ Encodings.value .mp3) = false := by
  refine ⟨?_, ?_, existsF_after_preremove fs _⟩
  · simp [Sink.format_audio, hl, he]
  · simp [Sink.format_audio, hl, he]

/-- C8 witness: a pre-existing `.mp3` output next to the raw buffer is
removed before the failing spawn, in both failure modes. -/
theorem c8_transcoder_errors_witness :
    (Sink.format_audio
        { filtered_users := [], max_size := 0, finished := true, encoding := .mp3,
          audio_data := [], file_path := "/tmp/rec" }
        ⟨fun _ => 42, false, ⟨2, 4, 48000⟩⟩
        [("/tmp/rec/42-0.mp3", FileContent.extF)] ⟨false, none⟩
        { file := "/tmp/rec/42-0.pcm", dir_path := "/tmp/rec", finished := true, size := 2, contents := [7, 8] } =
      ((if FS.existsF [("/tmp/rec/42-0.mp3", FileContent.extF)]
            (stemOf "/tmp/rec/42-0.pcm" ++ "." ++ Encodings.value .mp3)
        then FS.removeF [("/tmp/rec/42-0.mp3", FileContent.extF)]
            (stemOf "/tmp/rec/42-0.pcm" ++ "." ++ Encodings.value .mp3)
        else [("/tmp/rec/42-0.mp3", FileContent.extF)]),
       .error ⟨"ffmpeg was not found."⟩)) ∧
    (Sink.format_audio
        { filtered_users := [], max_size := 0, finished := true, encoding := .mp3,
          audio_data := [], file_path := "/tmp/rec" }
        ⟨fun _ => 42, false, ⟨2, 4, 48000⟩⟩
        [("/tmp/rec/42-0.mp3", FileContent.extF)] ⟨true, some ("OSError", "exec failed")⟩
        { file := "/tmp/rec/42-0.pcm", dir_path := "/tmp/rec", finished := true, size := 2, contents := [7, 8] } =
      ((if FS.existsF [("/tmp/rec/42-0.mp3", FileContent.extF)]
            (stemOf "/tmp/rec/42-0.pcm" ++ "." ++ Encodings.value .mp3)
        then FS.removeF [("/tmp/rec/42-0.mp3", FileContent.extF)]
            (stemOf "/tmp/rec/42-0.pcm" ++ "." ++ Encodings.value .mp3)
        else [("/tmp/rec/42-0.mp3", FileContent.extF)]),
       .error ⟨"Popen failed: " ++ "OSError" ++ ": " ++ "exec failed"⟩)) ∧
    FS.existsF
      (if FS.existsF [("/tmp/rec/42-0.mp3", FileContent.extF)]
            (stemOf "/tmp/rec/42-0.pcm" ++ "." ++ Encodings.value .mp3)
       then FS.removeF [("/tmp/rec/42-0.mp3", FileContent.extF)]
            (stemOf "/tmp/rec/42-0.pcm" ++ "." ++ Encodings.value .mp3)
       else [("/tmp/rec/42-0.mp3", FileContent.extF)])
      (stemOf "/tmp/rec/42-0.pcm" ++ "." ++ Encodings.value .mp3) = false :=
  c8_transcoder_errors
    { filtered_users := [], max_size := 0, finished := true, encoding := .mp3,
      audio_data := [], file_path := "/tmp/rec" }
    ⟨fun _ => 42, false, ⟨2, 4, 48000⟩⟩
    [("/tmp/rec/42-0.mp3", FileContent.extF)]
    { file := "/tmp/rec/42-0.pcm", dir_path := "/tmp/rec", finished := true, size := 2, contents := [7, 8] }
    "OSError" "exec failed" rfl rfl

/-- C2 (amended): `Sink.cleanup` has no error collection: the first
per-speaker conversion failure propagates immediately and aborts the
loop, so the buffers of the remaining speakers are neither finalized nor
converted.  Shown here for the external-transcoder path with the
binary missing: the first buffer is finalized, its conversion raises
"ffmpeg was not found.", and every later entry is returned untouched
(still open); the result carries that single exception, not a list. -/
theorem c2_first_failure_aborts (s : Sink) (vc : VoiceClient) (fs : FS) (u : Nat)
    (ad : AudioData) (rest : List (Nat × AudioData))
    (hav : s.audio_data = (u, ad) :: rest)
    (had : ad.finished = false)
    (hl : vc.listening = false)
    (he : s.encoding = .mp3) :
    Sink.cleanup s vc fs ⟨false, none⟩ =
      ({ s with finished := true,
                audio_data := (u, { ad with finished := true }) :: rest },
       (if FS.existsF fs (stemOf ad.file ++ "." ++ Encodings.value .mp3)
        then FS.removeF fs (stemOf ad.file ++ "." ++ Encodings.value .mp3) else fs),
       some ⟨"ffmpeg was not found."⟩) := by
  have hc : ad.cleanup = .ok { ad with finished := true } := by
    simp [AudioData.cleanup, had]
  simp only [Sink.cleanup, hav, cleanupEntries, hc]
  simp [Sink.format_audio, hl, he]

/-- C2 counterexample: a sink with two open speaker buffers and an
external target encoding, with the transcoder binary missing.  The
claim says the failure on speaker 1 is collected into a list and
speaker 2 is still finalized and converted; instead `cleanup` returns
the single propagated "ffmpeg was not found." exception and the
buffer of speaker 2 is left unfinalized. -/
theorem c2_counterexample :
    (Sink.cleanup
        { filtered_users := [], max_size := 0, finished := false, encoding := .mp3,
          audio_data :=
            [(1, { file := "/tmp/rec/41-1.pcm", dir_path := "/tmp/rec", finished := false, size := 2, contents := [1, 2] }),
             (2, { file := "/tmp/rec/52-2.pcm", dir_path := "/tmp/rec", finished := false, size := 1, contents := [3] })],
          file_path := "/tmp/rec" }
        ⟨fun _ => 0, false, ⟨2, 4, 48000⟩⟩ [] ⟨false, none⟩).2.2 =
      some ⟨"ffmpeg was not found."⟩ ∧
    (List.lookup 2
        (Sink.cleanup
          { filtered_users := [], max_size := 0, finished := false, encoding := .mp3,
            audio_data :=
              [(1, { file := "/tmp/rec/41-1.pcm", dir_path := "/tmp/rec", finished := false, size := 2, contents := [1, 2] }),
               (2, { file := "/tmp/rec/52-2.pcm", dir_path := "/tmp/rec", finished := false, size := 1, contents := [3] })],
            file_path := "/tmp/rec" }
          ⟨fun _ => 0, false, ⟨2, 4, 48000⟩⟩ [] ⟨false, none⟩).1.audio_data).map
      AudioData.finished = some false := by
  refine ⟨by rfl, by rfl⟩

/-- C2 witness: the amended theorem at a concrete two-speaker sink. -/
theorem c2_first_failure_aborts_witness :
    Sink.cleanup
        { filtered_users := [], max_size := 0, finished := false, encoding := .mp3,
          audio_data :=
            [(3, { file := "/tmp/rec/43-1.pcm", dir_path := "/tmp/rec", finished := false, size := 2, contents := [1, 2] }),
             (4, { file := "/tmp/rec/54-2.pcm", dir_path := "/tmp/rec", finished := false, size := 1, contents := [3] })],
          file_path := "/tmp/rec" }
        ⟨fun _ => 0, false, ⟨2, 4, 48000⟩⟩ [] ⟨false, none⟩ =
      ({ filtered_users := [], max_size := 0, finished := true, encoding := .mp3,
         audio_data :=
           [(3, { file := "/tmp/rec/43-1.pcm", dir_path := "/tmp/rec", finished := true, size := 2, contents := [1, 2] }),
            (4, { file := "/tmp/rec/54-2.pcm", dir_path := "/tmp/rec", finished := false, size := 1, contents := [3] })],
         file_path := "/tmp/rec" },
       (if FS.existsF [] (stemOf "/tmp/rec/43-1.pcm" ++ "." ++ Encodings.value .mp3)
        then FS.removeF [] (stemOf "/tmp/rec/43-1.pcm" ++ "." ++ Encodings.value .mp3) else []),
       some ⟨"ffmpeg was not found."⟩) :=
  c2_first_failure_aborts
    { filtered_users := [], max_size := 0, finished := false, encoding := .mp3,
      audio_data :=
        [(3, { file := "/tmp/rec/43-1.pcm", dir_path := "/tmp/rec", finished := false, size := 2, contents := [1, 2] }),
         (4, { file := "/tmp/rec/54-2.pcm", dir_path := "/tmp/rec", finished := false, size := 1, contents := [3] })],
      file_path := "/tmp/rec" }
    ⟨fun _ => 0, false, ⟨2, 4, 48000⟩⟩ [] 3
    { file := "/tmp/rec/43-1.pcm", dir_path := "/tmp/rec", finished := false, size := 2, contents := [1, 2] }
    [(4, { file := "/tmp/rec/54-2.pcm", dir_path := "/tmp/rec", finished := false, size := 1, contents := [3] })]
    rfl rfl rfl rfl
